import Mathlib

/-!
Verification development for the large-preimage upload core of the
repository: the PreimageOracleData value object and its block
decomposition, the generalized-index Position type, and the
LargePreimageUploader orchestration in
src/op-challenger/game/fault/preimages/large.go.

Bytes are modelled as natural numbers and byte sequences as lists of
naturals; no arithmetic is ever performed on byte values, only copying
and comparison, so the representation is faithful. Machine integers
(uint32) are modelled as naturals with an explicit reduction modulo
2 ^ 32 at the one point where Go truncates (the claimed size passed to
the initialization call).
-/

/-- The fixed keccak absorption block size, 136 bytes
(types.LibKeccakBlockSizeBytes in the repository). -/
def LibKeccakBlockSizeBytes : Nat := 136

/-- The PreimageOracleData value object of the types package:
oracle key, raw preimage bytes, target offset, and the derived
local/global classification. -/
structure PreimageOracleData where
  OracleKey : List Nat
  OracleData : List Nat
  OracleOffset : Nat
  IsLocal : Bool
deriving DecidableEq

/-- Modelled from the spec: the constructor NewPreimageOracleData of the
types package is absent from src/; only its test
(TestNewPreimageOracleData in src/unnamed/part_000) is present. That
test pins the classification at two inputs: key 1,2,3 must give
IsLocal = true (test case named LocalData) and key 0,2,3 must give
IsLocal = false (test case named GlobalData). The classification is
therefore modelled as: IsLocal holds iff the key is nonempty and its
first byte equals 1 (the local key-type tag), which satisfies the
repository test. Note that the specification text states the opposite
predicate (empty key or first byte 0), which contradicts the test. -/
def NewPreimageOracleData (key : List Nat) (data : List Nat) (offset : Nat) :
    PreimageOracleData :=
  { OracleKey := key
    OracleData := data
    OracleOffset := offset
    IsLocal := match key with
      | [] => false
      | b :: _ => b == 1 }

/-- Modelled from the spec: LeafCount of the types package is absent
from src/; only its test (TestPreimageOracleData_LeafCount in
src/unnamed/part_000) is present. The spec defines it as the ceiling
of len(OracleData) / 136, with empty data giving 0; the natural-number
form (len + 136 - 1) / 136 realizes that ceiling and reproduces all
four test vectors (0, 136, 272, 273 bytes giving 0, 1, 2, 3). -/
def PreimageOracleData.LeafCount (p : PreimageOracleData) : Nat :=
  (p.OracleData.length + LibKeccakBlockSizeBytes - 1) / LibKeccakBlockSizeBytes

/-- Modelled from the spec: GetKeccakLeaf of the types package is absent
from src/; only its test (TestPreimageOracleData_GetKeccakLeaf in
src/unnamed/part_000) is present. The spec describes it as returning a
136-byte block: the in-range slice of the data for the requested leaf
index, zero padded to 136 bytes, and a full zero block when the index
is at or past the leaf count; the alignment of the padded partial block
is pinned by the repository test, whose partial-block vector expects
135 zero bytes followed by the single in-range byte, i.e. the in-range
slice placed at the END of the block with zero padding on the left
(go-ethereum common.LeftPadBytes). This never signals an error. -/
def PreimageOracleData.GetKeccakLeaf (p : PreimageOracleData) (leafIndex : Nat) :
    List Nat :=
  let leafStart := leafIndex * LibKeccakBlockSizeBytes
  if p.OracleData.length ≤ leafStart then
    List.replicate LibKeccakBlockSizeBytes 0
  else
    let chunk := (p.OracleData.drop leafStart).take LibKeccakBlockSizeBytes
    List.replicate (LibKeccakBlockSizeBytes - chunk.length) 0 ++ chunk

/-- Modelled from the spec: the Position type of the types package is
absent from src/; only its test (TestIsRootPosition in
src/unnamed/part_000) is present. Position wraps one non-negative
generalized index in a complete binary tree (root = 1, children of n
are 2n and 2n+1); 0 is accepted as a root alias. -/
structure Position where
  gindex : Nat
deriving DecidableEq

/-- Modelled from the spec: constructor from a generalized index. -/
def NewPositionFromGIndex (g : Nat) : Position :=
  { gindex := g }

/-- Modelled from the spec: IsRootPosition is true iff the wrapped
generalized index is 0 or 1, as pinned by the repository test
(TestIsRootPosition: 0 and 1 give true, 2 gives false). -/
def Position.IsRootPosition (p : Position) : Bool :=
  p.gindex == 0 || p.gindex == 1

/-- The 136-byte block 0,1,...,135 used by
TestPreimageOracleData_GetKeccakLeaf in src/unnamed/part_000. -/
def testFullBlock : List Nat :=
  List.range 136

/-- The modelled types-package functions reproduce every vector of the
repository tests in src/unnamed/part_000: the four LeafCount vectors,
the four GetKeccakLeaf vectors, the two classification vectors of
TestNewPreimageOracleData, and the three TestIsRootPosition vectors. -/
theorem model_passes_part000_tests :
    (NewPreimageOracleData [] [] 0).LeafCount = 0 ∧
    (NewPreimageOracleData [] (List.replicate 136 0) 0).LeafCount = 1 ∧
    (NewPreimageOracleData [] (List.replicate (136 * 2) 0) 0).LeafCount = 2 ∧
    (NewPreimageOracleData [] (List.replicate (136 * 2 + 1) 0) 0).LeafCount = 3 ∧
    (NewPreimageOracleData [] testFullBlock 0).GetKeccakLeaf 0 = testFullBlock ∧
    (NewPreimageOracleData [] (testFullBlock ++ testFullBlock) 0).GetKeccakLeaf 1
      = testFullBlock ∧
    (NewPreimageOracleData [] (testFullBlock ++ [9]) 0).GetKeccakLeaf 1
      = List.replicate (LibKeccakBlockSizeBytes - 1) 0 ++ [9] ∧
    (NewPreimageOracleData [] (testFullBlock ++ [9]) 0).GetKeccakLeaf 2
      = List.replicate LibKeccakBlockSizeBytes 0 ∧
    (NewPreimageOracleData [1, 2, 3] [4, 5, 6] 7).IsLocal = true ∧
    (NewPreimageOracleData [0, 2, 3] [4, 5, 6] 7).IsLocal = false ∧
    (NewPositionFromGIndex 0).IsRootPosition = true ∧
    (NewPositionFromGIndex 1).IsRootPosition = true ∧
    (NewPositionFromGIndex 2).IsRootPosition = false := by
  set_option maxRecDepth 4096 in decide

/-!
Embedding of src/op-challenger/game/fault/preimages/large.go.

Go errors are modelled as an inductive type: the package-level sentinel
errNotSupported, opaque base errors produced by the external
collaborators, and wrapped errors produced by fmt.Errorf with a message
prefix and a wrapped cause. A Go function returning error is modelled
as returning Option GoError, with none standing for a nil error.

The two external collaborators (the PreimageOracleContract gateway and
the txmgr transaction submitter), the ambient entropy source consumed
by crypto/rand, and the keccak matrix primitive of the matrix package
(absent from src/) are injected as record fields of the uploader
environment, so a theorem can quantify over every behavior of the
externals. Every call the uploader makes to a collaborator, and every
log statement it executes, is recorded in an explicit trace that is
threaded through the translation, so that theorems can speak about
which calls were or were not made and at which level events were
logged.
-/

/-- Go errors: the errNotSupported sentinel of large.go, opaque
external errors, and fmt.Errorf wrapping with a message prefix. -/
inductive GoError where
  | errNotSupported : GoError
  | base : String → GoError
  | wrap : String → GoError → GoError
deriving DecidableEq

/-- A transaction candidate produced by the contract gateway; opaque to
the uploader, modelled by an identifier. -/
structure TxCandidate where
  id : Nat
deriving DecidableEq

/-- Receipt status of a mined transaction that reverted
(go-ethereum types.ReceiptStatusFailed). -/
def ReceiptStatusFailed : Nat := 0

/-- Receipt status of a mined transaction that succeeded
(go-ethereum types.ReceiptStatusSuccessful). -/
def ReceiptStatusSuccessful : Nat := 1

/-- A mined transaction receipt as observed through txmgr.Send. -/
structure Receipt where
  Status : Nat
  TxHash : Nat
deriving DecidableEq

/-- A contract leaf of the contracts package: a 136-byte input block,
its 0-based index, and the state commitment snapshot (hash values
modelled as naturals). -/
structure Leaf where
  Input : List Nat
  Index : Nat
  StateCommitment : Nat
deriving DecidableEq

/-- The PreimageOracleContract gateway interface consumed by the
uploader: each operation either fails with an error or yields
transaction candidate(s). -/
structure PreimageOracleContract where
  InitLargePreimage : Nat → Nat → Nat → Except GoError TxCandidate
  AddLeaves : Nat → List Leaf → Bool → Except GoError (List TxCandidate)

/-- The txmgr transaction submitter interface: Send broadcasts a
candidate and blocks until it either errors or yields a mined
receipt. -/
structure TxManager where
  Send : TxCandidate → Except GoError Receipt

/-- Modelled from the spec: the keccak matrix package
(op-challenger/game/keccak/matrix) is absent from src/; the spec treats
it as an opaque stateful primitive exposing block absorption and a
state-commitment snapshot. Its hidden state is modelled as a natural
number transformed by the injected functions. -/
structure StateMatrixPrimitive where
  newState : Nat
  absorbLeaf : Nat → List Nat → Bool → Nat
  stateCommitment : Nat → Nat

/-- The LargePreimageUploader with its injected collaborators. The
entropy field models the outcome of reading crypto/rand.Reader inside
newUUID: either a read failure or a raw entropy value. -/
structure LargePreimageUploader where
  txMgr : TxManager
  contract : PreimageOracleContract
  keccak : StateMatrixPrimitive
  entropy : Except GoError Nat

/-- One recorded interaction with a collaborator. -/
inductive CallEvent where
  | initLargePreimageCall : Nat → Nat → Nat → CallEvent
  | addLeavesCall : Nat → List Leaf → Bool → CallEvent
  | sendCall : TxCandidate → CallEvent
deriving DecidableEq

/-- Whether a recorded call is an AddLeaves gateway call. -/
def CallEvent.isAddLeaves : CallEvent → Bool
  | CallEvent.addLeavesCall _ _ _ => true
  | _ => false

/-- Log severity levels of the go-ethereum logger used by large.go. -/
inductive LogLevel where
  | error : LogLevel
  | warn : LogLevel
  | debug : LogLevel
deriving DecidableEq

/-- One executed log statement: its level and constant message text. -/
structure LogEvent where
  level : LogLevel
  msg : String
deriving DecidableEq

/-- The observable trace of one UploadPreimage invocation: collaborator
calls in order, and log statements in order. -/
structure UploadTrace where
  calls : List CallEvent
  logs : List LogEvent
deriving DecidableEq

/-- The empty trace at the start of an invocation. -/
def emptyTrace : UploadTrace :=
  { calls := [], logs := [] }

/-- sendTxAndWait of large.go: sends a candidate through the txmgr and
waits for a receipt. A Send error is returned as-is; a mined receipt
with failed (reverted) status is logged at ERROR level and a successful
receipt at debug level, and in both mined cases nil (none) is
returned. -/
def sendTxAndWait (p : LargePreimageUploader) (t : UploadTrace)
    (candidate : TxCandidate) : UploadTrace × Option GoError :=
  let t1 := { t with calls := t.calls ++ [CallEvent.sendCall candidate] }
  match p.txMgr.Send candidate with
  | Except.error err => (t1, some err)
  | Except.ok receipt =>
    if receipt.Status = ReceiptStatusFailed then
      ({ t1 with logs := t1.logs ++
          [{ level := LogLevel.error,
             msg := "LargePreimageUploader tx successfully published but reverted" }] },
       none)
    else
      ({ t1 with logs := t1.logs ++
          [{ level := LogLevel.debug,
             msg := "LargePreimageUploader tx successfully published" }] },
       none)

/-- initLargePreimage of large.go: builds the initialization candidate
via the gateway and sends it, wrapping either failure. -/
def initLargePreimage (p : LargePreimageUploader) (t : UploadTrace)
    (uuid partOffset claimedSize : Nat) : UploadTrace × Option GoError :=
  let t1 := { t with calls := t.calls ++
      [CallEvent.initLargePreimageCall uuid partOffset claimedSize] }
  match p.contract.InitLargePreimage uuid partOffset claimedSize with
  | Except.error err =>
      (t1, some (GoError.wrap "failed to create pre-image oracle tx" err))
  | Except.ok candidate =>
    match sendTxAndWait p t1 candidate with
    | (t2, some err) =>
        (t2, some (GoError.wrap "failed to populate pre-image oracle" err))
    | (t2, none) => (t2, none)

/-- The loop body of addLargePreimageLeafs: sends each candidate in
order, stopping at the first failure with a wrapped error. -/
def sendCandidates (p : LargePreimageUploader) (t : UploadTrace) :
    List TxCandidate → UploadTrace × Option GoError
  | [] => (t, none)
  | candidate :: rest =>
    match sendTxAndWait p t candidate with
    | (t2, some err) =>
        (t2, some (GoError.wrap "failed to populate pre-image oracle" err))
    | (t2, none) => sendCandidates p t2 rest

/-- addLargePreimageLeafs of large.go: asks the gateway to split the
leaves into transaction candidates and submits each in sequence,
waiting for confirmation before sending the next. -/
def addLargePreimageLeafs (p : LargePreimageUploader) (t : UploadTrace)
    (uuid : Nat) (leaves : List Leaf) (finalize : Bool) :
    UploadTrace × Option GoError :=
  let t1 := { t with calls := t.calls ++
      [CallEvent.addLeavesCall uuid leaves finalize] }
  match p.contract.AddLeaves uuid leaves finalize with
  | Except.error err =>
      (t1, some (GoError.wrap "failed to create pre-image oracle tx" err))
  | Except.ok candidates => sendCandidates p t1 candidates

/-- The exclusive upper bound passed to crypto/rand.Int by newUUID of
large.go: the code computes 2 ^ 130 and then subtracts 1 in place, so
the bound is 2 ^ 130 - 1, not 2 ^ 130. -/
def newUUIDmax : Nat := 2 ^ 130 - 1

/-- newUUID of large.go: crypto/rand.Int(reader, max) either fails when
the entropy source fails, or returns a uniformly random integer in
[0, max). With the raw entropy value e injected through the
environment, the value e % newUUIDmax ranges over exactly the interval
[0, newUUIDmax) that rand.Int can produce. -/
def newUUID (p : LargePreimageUploader) : Except GoError Nat :=
  match p.entropy with
  | Except.error err => Except.error err
  | Except.ok e => Except.ok (e % newUUIDmax)

/-- The leaf-construction loop at the top of UploadPreimage: absorb
each keccak leaf into the state matrix (marking the last), snapshot the
commitment after each absorption, and collect the contract leaves in
order. The accumulator carries the hidden matrix state. -/
def buildLeafsLoop (k : StateMatrixPrimitive) (data : PreimageOracleData)
    (n : Nat) : List Nat → Nat → List Leaf → List Leaf
  | [], _, acc => acc
  | i :: rest, st, acc =>
    let leaf := data.GetKeccakLeaf i
    let st1 := k.absorbLeaf st leaf (i == n - 1)
    let commitment := k.stateCommitment st1
    buildLeafsLoop k data n rest st1
      (acc ++ [{ Input := leaf, Index := i, StateCommitment := commitment }])

/-- The ordered contract-leaf sequence UploadPreimage computes before
any network interaction. -/
def buildLeafs (k : StateMatrixPrimitive) (data : PreimageOracleData) :
    List Leaf :=
  buildLeafsLoop k data data.LeafCount (List.range data.LeafCount) k.newState []

/-- The modulus of the Go conversion uint32(len(OracleData)): lengths
are reduced modulo 2 ^ 32 when passed as the claimed size. -/
def uint32Modulus : Nat := 2 ^ 32

/-- UploadPreimage of large.go: build the leaves, generate a UUID,
issue the initialization call, issue the leaf-transmission calls with
finalize = false, and on full success return the errNotSupported
sentinel (finalization is deliberately unimplemented). The parent claim
index is accepted and unused, as in the source. The claimed size is
len(OracleData) truncated to uint32. -/
def UploadPreimage (p : LargePreimageUploader) (parent : Nat)
    (data : PreimageOracleData) : UploadTrace × Option GoError :=
  let leafs := buildLeafs p.keccak data
  let _ := parent
  match newUUID p with
  | Except.error err =>
      (emptyTrace, some (GoError.wrap "failed to generate UUID" err))
  | Except.ok uuid =>
    match initLargePreimage p emptyTrace uuid data.OracleOffset
        (data.OracleData.length % uint32Modulus) with
    | (t1, some err) =>
        (t1, some (GoError.wrap
          ("failed to initialize large preimage with uuid: " ++ Nat.repr uuid) err))
    | (t1, none) =>
      match addLargePreimageLeafs p t1 uuid leafs false with
      | (t2, some err) =>
          (t2, some (GoError.wrap
            ("failed to add leaves to large preimage with uuid: " ++ Nat.repr uuid) err))
      | (t2, none) => (t2, some GoError.errNotSupported)

/-- Helper: truncating the length bound of take by the list length
changes nothing. -/
theorem take_min_length_left (D : List Nat) (k : Nat) :
    D.take (min D.length k) = D.take k := by
  rcases le_total D.length k with h | h
  · rw [min_eq_left h, List.take_length, List.take_of_length_le h]
  · rw [min_eq_right h]

/-- Helper: a leaf index below the leaf count addresses a block that
starts strictly inside the data. -/
theorem leafStart_lt_of_lt_leafCount (p : PreimageOracleData) (i : Nat)
    (h : i < p.LeafCount) :
    i * LibKeccakBlockSizeBytes < p.OracleData.length := by
  unfold PreimageOracleData.LeafCount at h
  unfold LibKeccakBlockSizeBytes at h ⊢
  omega

/-- Helper: every block GetKeccakLeaf returns has exactly 136 bytes. -/
theorem getKeccakLeaf_length (p : PreimageOracleData) (i : Nat) :
    (p.GetKeccakLeaf i).length = LibKeccakBlockSizeBytes := by
  simp only [PreimageOracleData.GetKeccakLeaf]
  split
  · simp
  · simp only [List.length_append, List.length_replicate, List.length_take,
      List.length_drop]
    omega

/-- C1 counterexample: the claim asserts IsLocal is false for key 1,2,3
and true for key 0,2,3, but the constructor (as pinned by the
repository test TestNewPreimageOracleData) classifies key 1,2,3 as
local and key 0,2,3 as global; an empty key is also not local. -/
theorem newPreimageOracleData_isLocal_counterexample :
    (NewPreimageOracleData [1, 2, 3] [4, 5, 6] 7).IsLocal = true ∧
    (NewPreimageOracleData [0, 2, 3] [4, 5, 6] 7).IsLocal = false ∧
    (NewPreimageOracleData [] [4, 5, 6] 7).IsLocal = false := by
  decide

/-- C1 (amended): for every PreimageOracleData constructed from
(oracleKey, oracleData, oracleOffset), the IsLocal flag is true if and
only if oracleKey is nonempty and its first byte equals 1; key 1,2,3
yields IsLocal = true (local) and key 0,2,3 yields IsLocal = false
(global). -/
theorem newPreimageOracleData_isLocal_iff :
    (∀ (key data : List Nat) (offset : Nat),
        (NewPreimageOracleData key data offset).IsLocal = true ↔
          key.head? = some 1) ∧
    (NewPreimageOracleData [1, 2, 3] [4, 5, 6] 7).IsLocal = true ∧
    (NewPreimageOracleData [0, 2, 3] [4, 5, 6] 7).IsLocal = false := by
  refine ⟨fun key data offset => ?_, by decide, by decide⟩
  cases key with
  | nil => simp [NewPreimageOracleData]
  | cons b rest => simp [NewPreimageOracleData]

/-- C7: for every byte sequence D, LeafCount equals the ceiling of
len(D) / 136: it is the ceiling division of Mathlib, it is the least k
with len(D) ≤ 136 * k, and 0, 136, 272, 273 bytes yield 0, 1, 2, 3
leaves. -/
theorem leafCount_is_ceil :
    (∀ p : PreimageOracleData,
        p.LeafCount = CeilDiv.ceilDiv p.OracleData.length LibKeccakBlockSizeBytes) ∧
    (∀ (p : PreimageOracleData) (k : Nat),
        p.OracleData.length ≤ LibKeccakBlockSizeBytes * k ↔ p.LeafCount ≤ k) ∧
    (NewPreimageOracleData [] [] 0).LeafCount = 0 ∧
    (NewPreimageOracleData [] (List.replicate 136 0) 0).LeafCount = 1 ∧
    (NewPreimageOracleData [] (List.replicate (136 * 2) 0) 0).LeafCount = 2 ∧
    (NewPreimageOracleData [] (List.replicate (136 * 2 + 1) 0) 0).LeafCount = 3 := by
  refine ⟨fun p => rfl, fun p k => ?_, ?_, ?_, ?_, ?_⟩
  · unfold PreimageOracleData.LeafCount LibKeccakBlockSizeBytes
    omega
  all_goals
    simp only [PreimageOracleData.LeafCount, NewPreimageOracleData,
      LibKeccakBlockSizeBytes, List.length_replicate, List.length_nil]

/-- C2 counterexample: for the 137-byte data consisting of one full
block followed by the single byte 9, leaf index 1 is in range
(LeafCount = 2), and GetKeccakLeaf places the in-range byte at the END
of the returned block (135 zero bytes then 9, as the repository test
TestPreimageOracleData_GetKeccakLeaf requires), not left-aligned at the
start (9 then 135 zero bytes) as the claim states. -/
theorem getKeccakLeaf_alignment_counterexample :
    1 < (NewPreimageOracleData [] (testFullBlock ++ [9]) 0).LeafCount ∧
    (NewPreimageOracleData [] (testFullBlock ++ [9]) 0).GetKeccakLeaf 1
      = List.replicate 135 0 ++ [9] ∧
    (NewPreimageOracleData [] (testFullBlock ++ [9]) 0).GetKeccakLeaf 1
      ≠ 9 :: List.replicate 135 0 := by
  set_option maxRecDepth 8192 in decide

/-- C2 (amended): for every byte sequence D and every index
i < LeafCount(D), GetKeccakLeaf(i) returns a 136-byte block equal to
D[i*136 : min(len(D), i*136+136)] placed right-aligned at the end of
the block, with the leading bytes zero. -/
theorem getKeccakLeaf_inRange (p : PreimageOracleData) (i : Nat)
    (h : i < p.LeafCount) :
    (p.GetKeccakLeaf i).length = LibKeccakBlockSizeBytes ∧
    p.GetKeccakLeaf i
      = List.replicate
          (LibKeccakBlockSizeBytes -
            ((p.OracleData.take (min p.OracleData.length
                (i * LibKeccakBlockSizeBytes + LibKeccakBlockSizeBytes))).drop
              (i * LibKeccakBlockSizeBytes)).length) 0 ++
        (p.OracleData.take (min p.OracleData.length
            (i * LibKeccakBlockSizeBytes + LibKeccakBlockSizeBytes))).drop
          (i * LibKeccakBlockSizeBytes) := by
  have hlt := leafStart_lt_of_lt_leafCount p i h
  refine ⟨getKeccakLeaf_length p i, ?_⟩
  rw [take_min_length_left,
    List.drop_take (i * LibKeccakBlockSizeBytes + LibKeccakBlockSizeBytes)
      (i * LibKeccakBlockSizeBytes) p.OracleData,
    Nat.add_sub_cancel_left]
  simp only [PreimageOracleData.GetKeccakLeaf]
  rw [if_neg (by omega)]

/-- C8: for every byte sequence D and every index i at or past
LeafCount(D), GetKeccakLeaf(i) returns a full 136-byte all-zero block;
the function is total and never signals an error. -/
theorem getKeccakLeaf_outOfRange (p : PreimageOracleData) (i : Nat)
    (h : p.LeafCount ≤ i) :
    p.GetKeccakLeaf i = List.replicate LibKeccakBlockSizeBytes 0 := by
  have hge : p.OracleData.length ≤ i * LibKeccakBlockSizeBytes := by
    unfold PreimageOracleData.LeafCount at h
    unfold LibKeccakBlockSizeBytes at h ⊢
    omega
  simp only [PreimageOracleData.GetKeccakLeaf]
  rw [if_pos hge]

/-- C9: for every non-negative generalized index g, IsRootPosition is
true iff g is 0 or 1, and is false for every g at least 2. -/
theorem isRootPosition_iff :
    (∀ g : Nat, (NewPositionFromGIndex g).IsRootPosition = true ↔ (g = 0 ∨ g = 1)) ∧
    (∀ g : Nat, 2 ≤ g → (NewPositionFromGIndex g).IsRootPosition = false) := by
  constructor
  · intro g
    simp [NewPositionFromGIndex, Position.IsRootPosition]
  · intro g hg
    simp [NewPositionFromGIndex, Position.IsRootPosition]
    omega

/-- Witness for the amended C2 theorem at the 137-byte repository test
vector (one full block then the byte 9) and leaf index 1. -/
theorem getKeccakLeaf_inRange_witness :
    1 < (NewPreimageOracleData [] (testFullBlock ++ [9]) 0).LeafCount ∧
    (((NewPreimageOracleData [] (testFullBlock ++ [9]) 0).GetKeccakLeaf 1).length
        = LibKeccakBlockSizeBytes ∧
      (NewPreimageOracleData [] (testFullBlock ++ [9]) 0).GetKeccakLeaf 1
        = List.replicate
            (LibKeccakBlockSizeBytes -
              (((NewPreimageOracleData [] (testFullBlock ++ [9]) 0).OracleData.take
                  (min (NewPreimageOracleData [] (testFullBlock ++ [9]) 0).OracleData.length
                    (1 * LibKeccakBlockSizeBytes + LibKeccakBlockSizeBytes))).drop
                (1 * LibKeccakBlockSizeBytes)).length) 0 ++
          ((NewPreimageOracleData [] (testFullBlock ++ [9]) 0).OracleData.take
              (min (NewPreimageOracleData [] (testFullBlock ++ [9]) 0).OracleData.length
                (1 * LibKeccakBlockSizeBytes + LibKeccakBlockSizeBytes))).drop
            (1 * LibKeccakBlockSizeBytes)) :=
  ⟨by set_option maxRecDepth 8192 in decide,
   getKeccakLeaf_inRange (NewPreimageOracleData [] (testFullBlock ++ [9]) 0) 1
     (by set_option maxRecDepth 8192 in decide)⟩

/-- Witness for the C8 theorem at the 137-byte repository test vector
and leaf index 2 (the OffsetOverflow test case). -/
theorem getKeccakLeaf_outOfRange_witness :
    (NewPreimageOracleData [] (testFullBlock ++ [9]) 0).LeafCount ≤ 2 ∧
    (NewPreimageOracleData [] (testFullBlock ++ [9]) 0).GetKeccakLeaf 2
      = List.replicate LibKeccakBlockSizeBytes 0 :=
  ⟨by set_option maxRecDepth 8192 in decide,
   getKeccakLeaf_outOfRange (NewPreimageOracleData [] (testFullBlock ++ [9]) 0) 2
     (by set_option maxRecDepth 8192 in decide)⟩

/-- Witness for the C9 theorem at the concrete generalized index 7. -/
theorem isRootPosition_iff_witness :
    2 ≤ 7 ∧ (NewPositionFromGIndex 7).IsRootPosition = false :=
  ⟨by decide, isRootPosition_iff.2 7 (by decide)⟩

/-- Helper: when Send yields a mined receipt of any status,
sendTxAndWait returns nil. -/
theorem sendTxAndWait_snd_of_ok (p : LargePreimageUploader) (t : UploadTrace)
    (c : TxCandidate) (r : Receipt) (h : p.txMgr.Send c = Except.ok r) :
    (sendTxAndWait p t c).2 = none := by
  simp only [sendTxAndWait, h]
  split <;> rfl

/-- Helper: when every Send yields a mined receipt, the candidate loop
of addLargePreimageLeafs returns nil. -/
theorem sendCandidates_snd_of_ok (p : LargePreimageUploader)
    (hall : ∀ c, ∃ r, p.txMgr.Send c = Except.ok r) :
    ∀ (cs : List TxCandidate) (t : UploadTrace), (sendCandidates p t cs).2 = none := by
  intro cs
  induction cs with
  | nil => intro t; rfl
  | cons c rest ih =>
    intro t
    obtain ⟨r, hr⟩ := hall c
    have h2 := sendTxAndWait_snd_of_ok p t c r hr
    rcases hst : sendTxAndWait p t c with ⟨t2, e2⟩
    rw [hst] at h2
    simp only at h2
    subst h2
    simp only [sendCandidates, hst]
    exact ih t2

/-- Helper: successful build and send of the initialization candidate
makes initLargePreimage return nil. -/
theorem initLargePreimage_snd_of_ok (p : LargePreimageUploader) (t : UploadTrace)
    (uuid partOffset claimedSize : Nat) (c0 : TxCandidate) (r : Receipt)
    (hinit : p.contract.InitLargePreimage uuid partOffset claimedSize = Except.ok c0)
    (hsend : p.txMgr.Send c0 = Except.ok r) :
    (initLargePreimage p t uuid partOffset claimedSize).2 = none := by
  have h2 := sendTxAndWait_snd_of_ok p
    { t with calls := t.calls ++
        [CallEvent.initLargePreimageCall uuid partOffset claimedSize] } c0 r hsend
  rcases hst : sendTxAndWait p
      { t with calls := t.calls ++
          [CallEvent.initLargePreimageCall uuid partOffset claimedSize] } c0
    with ⟨t2, e2⟩
  rw [hst] at h2
  simp only at h2
  subst h2
  simp only [initLargePreimage, hinit, hst]

/-- Helper: a successful AddLeaves build whose candidates all send
successfully makes addLargePreimageLeafs return nil. -/
theorem addLargePreimageLeafs_snd_of_ok (p : LargePreimageUploader)
    (t : UploadTrace) (uuid : Nat) (leaves : List Leaf) (finalize : Bool)
    (cs : List TxCandidate)
    (hadd : p.contract.AddLeaves uuid leaves finalize = Except.ok cs)
    (hall : ∀ c, ∃ r, p.txMgr.Send c = Except.ok r) :
    (addLargePreimageLeafs p t uuid leaves finalize).2 = none := by
  simp only [addLargePreimageLeafs, hadd]
  exact sendCandidates_snd_of_ok p hall cs _

/-- C3: on every input on which UUID generation, the initialization
call, and every leaf-transmission transaction all succeed,
UploadPreimage terminates and returns the fixed errNotSupported
(finalization pending) sentinel rather than nil. -/
theorem uploadPreimage_success_sentinel
    (p : LargePreimageUploader) (parent : Nat) (data : PreimageOracleData)
    (e : Nat) (c0 : TxCandidate) (cs : List TxCandidate)
    (hent : p.entropy = Except.ok e)
    (hinit : p.contract.InitLargePreimage (e % newUUIDmax) data.OracleOffset
        (data.OracleData.length % uint32Modulus) = Except.ok c0)
    (hadd : p.contract.AddLeaves (e % newUUIDmax) (buildLeafs p.keccak data) false
        = Except.ok cs)
    (hsend : ∀ c, ∃ r, p.txMgr.Send c = Except.ok r) :
    (UploadPreimage p parent data).2 = some GoError.errNotSupported := by
  have hu : newUUID p = Except.ok (e % newUUIDmax) := by
    simp only [newUUID, hent]
  obtain ⟨r0, hr0⟩ := hsend c0
  have hI := initLargePreimage_snd_of_ok p emptyTrace (e % newUUIDmax)
    data.OracleOffset (data.OracleData.length % uint32Modulus) c0 r0 hinit hr0
  rcases hIe : initLargePreimage p emptyTrace (e % newUUIDmax) data.OracleOffset
      (data.OracleData.length % uint32Modulus) with ⟨t1, e1⟩
  rw [hIe] at hI
  simp only at hI
  subst hI
  have hA := addLargePreimageLeafs_snd_of_ok p t1 (e % newUUIDmax)
    (buildLeafs p.keccak data) false cs hadd hsend
  rcases hAe : addLargePreimageLeafs p t1 (e % newUUIDmax)
      (buildLeafs p.keccak data) false with ⟨t2, e2⟩
  rw [hAe] at hA
  simp only at hA
  subst hA
  simp only [UploadPreimage, hu, hIe, hAe]

/-- C4: when UUID generation succeeds but building or sending the
initialization call fails (including a broadcast error reported by the
submitter), UploadPreimage returns the wrapped initialization-failure
error, records no AddLeaves gateway call, and submits no transaction
other than (at most) the initialization candidate itself. -/
theorem uploadPreimage_initFailure_no_leaves
    (p : LargePreimageUploader) (parent : Nat) (data : PreimageOracleData)
    (e : Nat) (hent : p.entropy = Except.ok e)
    (hfail :
      (∃ e0, p.contract.InitLargePreimage (e % newUUIDmax) data.OracleOffset
          (data.OracleData.length % uint32Modulus) = Except.error e0) ∨
      (∃ c0, p.contract.InitLargePreimage (e % newUUIDmax) data.OracleOffset
          (data.OracleData.length % uint32Modulus) = Except.ok c0 ∧
        ∃ e1, p.txMgr.Send c0 = Except.error e1)) :
    (∃ cause, (UploadPreimage p parent data).2
        = some (GoError.wrap
            ("failed to initialize large preimage with uuid: "
              ++ Nat.repr (e % newUUIDmax)) cause)) ∧
    (∀ ev ∈ (UploadPreimage p parent data).1.calls, ev.isAddLeaves = false) ∧
    (∀ c, CallEvent.sendCall c ∈ (UploadPreimage p parent data).1.calls →
      p.contract.InitLargePreimage (e % newUUIDmax) data.OracleOffset
          (data.OracleData.length % uint32Modulus) = Except.ok c) := by
  have hu : newUUID p = Except.ok (e % newUUIDmax) := by
    simp only [newUUID, hent]
  rcases hfail with ⟨e0, h0⟩ | ⟨c0, h0, e1, h1⟩
  · have hEq : UploadPreimage p parent data
        = ({ calls := [CallEvent.initLargePreimageCall (e % newUUIDmax)
                data.OracleOffset (data.OracleData.length % uint32Modulus)], logs := [] },
           some (GoError.wrap ("failed to initialize large preimage with uuid: "
                ++ Nat.repr (e % newUUIDmax))
              (GoError.wrap "failed to create pre-image oracle tx" e0))) := by
      simp only [UploadPreimage, hu, initLargePreimage, h0, emptyTrace,
        List.nil_append]
    rw [hEq]
    refine ⟨⟨GoError.wrap "failed to create pre-image oracle tx" e0, rfl⟩, ?_, ?_⟩
    · intro ev hev
      have h := List.mem_singleton.mp hev
      subst h
      rfl
    · intro c hc
      have h := List.mem_singleton.mp hc
      exact CallEvent.noConfusion h
  · have hEq : UploadPreimage p parent data
        = ({ calls := [CallEvent.initLargePreimageCall (e % newUUIDmax)
                data.OracleOffset (data.OracleData.length % uint32Modulus),
              CallEvent.sendCall c0], logs := [] },
           some (GoError.wrap ("failed to initialize large preimage with uuid: "
                ++ Nat.repr (e % newUUIDmax))
              (GoError.wrap "failed to populate pre-image oracle" e1))) := by
      simp only [UploadPreimage, hu, initLargePreimage, sendTxAndWait, h0, h1,
        emptyTrace, List.nil_append, List.cons_append]
    rw [hEq]
    refine ⟨⟨GoError.wrap "failed to populate pre-image oracle" e1, rfl⟩, ?_, ?_⟩
    · intro ev hev
      rcases List.mem_cons.mp hev with h | h
      · subst h
        rfl
      · have h2 := List.mem_singleton.mp h
        subst h2
        rfl
    · intro c hc
      rcases List.mem_cons.mp hc with h | h
      · exact CallEvent.noConfusion h
      · have h2 := List.mem_singleton.mp h
        rw [CallEvent.sendCall.injEq] at h2
        rw [h2]
        exact h0

/-- A gateway whose operations always succeed, used by the concrete
witnesses. -/
def happyContract : PreimageOracleContract :=
  { InitLargePreimage := fun _ _ _ => Except.ok { id := 0 }
    AddLeaves := fun _ _ _ => Except.ok [{ id := 1 }] }

/-- A submitter whose Send always yields a successful mined receipt. -/
def happyTxMgr : TxManager :=
  { Send := fun _ => Except.ok { Status := ReceiptStatusSuccessful, TxHash := 0 } }

/-- A submitter whose Send always yields a mined receipt with failed
(reverted) status. -/
def revertTxMgr : TxManager :=
  { Send := fun _ => Except.ok { Status := ReceiptStatusFailed, TxHash := 5 } }

/-- A concrete keccak primitive instance for the witnesses. -/
def trivialKeccak : StateMatrixPrimitive :=
  { newState := 0
    absorbLeaf := fun s _ _ => s + 1
    stateCommitment := fun s => s }

/-- An uploader whose collaborators all succeed. -/
def happyUploader : LargePreimageUploader :=
  { txMgr := happyTxMgr
    contract := happyContract
    keccak := trivialKeccak
    entropy := Except.ok 42 }

/-- An uploader whose gateway fails to build the initialization
candidate. -/
def failingInitUploader : LargePreimageUploader :=
  { txMgr := happyTxMgr
    contract :=
      { InitLargePreimage := fun _ _ _ => Except.error (GoError.base "no gas")
        AddLeaves := fun _ _ _ => Except.ok [] }
    keccak := trivialKeccak
    entropy := Except.ok 7 }

/-- An uploader whose every transaction is mined but reverts. -/
def revertUploader : LargePreimageUploader :=
  { txMgr := revertTxMgr
    contract := happyContract
    keccak := trivialKeccak
    entropy := Except.ok 3 }

/-- An all-success uploader carrying a chosen entropy value, used to
realize any UUID below the bound. -/
def entropyUploader (v : Nat) : LargePreimageUploader :=
  { txMgr := happyTxMgr
    contract := happyContract
    keccak := trivialKeccak
    entropy := Except.ok v }

/-- Witness for the C3 theorem: with the all-success uploader and empty
data, UploadPreimage returns the errNotSupported sentinel. -/
theorem uploadPreimage_success_sentinel_witness :
    happyUploader.entropy = Except.ok 42 ∧
    (UploadPreimage happyUploader 0 (NewPreimageOracleData [] [] 0)).2
      = some GoError.errNotSupported :=
  ⟨rfl,
   uploadPreimage_success_sentinel happyUploader 0 (NewPreimageOracleData [] [] 0)
     42 { id := 0 } [{ id := 1 }] rfl rfl rfl
     (fun _ => ⟨{ Status := ReceiptStatusSuccessful, TxHash := 0 }, rfl⟩)⟩

/-- Witness for the C4 theorem: with the failing-initialization
uploader, UploadPreimage returns the wrapped initialization failure. -/
theorem uploadPreimage_initFailure_no_leaves_witness :
    failingInitUploader.entropy = Except.ok 7 ∧
    (∃ cause, (UploadPreimage failingInitUploader 0
          (NewPreimageOracleData [] [] 0)).2
        = some (GoError.wrap
            ("failed to initialize large preimage with uuid: "
              ++ Nat.repr (7 % newUUIDmax)) cause)) :=
  ⟨rfl,
   (uploadPreimage_initFailure_no_leaves failingInitUploader 0
      (NewPreimageOracleData [] [] 0) 7 rfl
      (Or.inl ⟨GoError.base "no gas", rfl⟩)).1⟩

/-- C5 counterexample: with a submitter that mines the transaction with
reverted status, sendTxAndWait returns nil but records the event at
ERROR level, not at warning level as the claim states. -/
theorem sendTxAndWait_reverted_logs_error_not_warn :
    (sendTxAndWait revertUploader emptyTrace { id := 0 }).2 = none ∧
    (sendTxAndWait revertUploader emptyTrace { id := 0 }).1.logs
      = [{ level := LogLevel.error,
           msg := "LargePreimageUploader tx successfully published but reverted" }] ∧
    LogLevel.error ≠ LogLevel.warn := by
  refine ⟨rfl, rfl, by decide⟩

/-- C5 (amended): for every transaction candidate whose Send returns a
mined receipt with failed (reverted) status, sendTxAndWait records the
event at ERROR level and returns no error, so UploadPreimage does not
treat a published-but-reverted transaction as a failure of the
upload. -/
theorem sendTxAndWait_reverted_nonfatal
    (p : LargePreimageUploader) (t : UploadTrace) (c : TxCandidate) (r : Receipt)
    (hsend : p.txMgr.Send c = Except.ok r)
    (hfailed : r.Status = ReceiptStatusFailed) :
    (sendTxAndWait p t c).2 = none ∧
    (sendTxAndWait p t c).1.logs = t.logs ++
      [{ level := LogLevel.error,
         msg := "LargePreimageUploader tx successfully published but reverted" }] := by
  simp only [sendTxAndWait, hsend]
  rw [if_pos hfailed]
  exact ⟨rfl, rfl⟩

/-- Witness for the amended C5 theorem at the concrete reverting
uploader. -/
theorem sendTxAndWait_reverted_nonfatal_witness :
    revertUploader.txMgr.Send { id := 0 }
      = Except.ok { Status := ReceiptStatusFailed, TxHash := 5 } ∧
    (sendTxAndWait revertUploader emptyTrace { id := 0 }).2 = none ∧
    (sendTxAndWait revertUploader emptyTrace { id := 0 }).1.logs
      = emptyTrace.logs ++
        [{ level := LogLevel.error,
           msg := "LargePreimageUploader tx successfully published but reverted" }] :=
  ⟨rfl,
   (sendTxAndWait_reverted_nonfatal revertUploader emptyTrace { id := 0 }
      { Status := ReceiptStatusFailed, TxHash := 5 } rfl rfl).1,
   (sendTxAndWait_reverted_nonfatal revertUploader emptyTrace { id := 0 }
      { Status := ReceiptStatusFailed, TxHash := 5 } rfl rfl).2⟩

/-- C6 counterexample: it is not the case that every value below
2 ^ 130 is a possible output of newUUID. The proof exhibits the
concrete value 2 ^ 130 - 1, which newUUID can never return because the
code passes 2 ^ 130 - 1 (not 2 ^ 130) as the exclusive bound to
crypto/rand.Int. -/
theorem newUUID_not_full_domain :
    ¬ (∀ v : Nat, v < 2 ^ 130 →
        ∃ p : LargePreimageUploader, newUUID p = Except.ok v) := by
  intro h
  obtain ⟨p, hp⟩ := h (2 ^ 130 - 1) (by norm_num)
  unfold newUUID at hp
  rcases he : p.entropy with err | en
  · rw [he] at hp
    exact Except.noConfusion hp
  · rw [he] at hp
    have h1 : en % newUUIDmax = 2 ^ 130 - 1 := by
      exact Except.ok.inj hp
    have h2 : en % newUUIDmax < newUUIDmax :=
      Nat.mod_lt en (by norm_num [newUUIDmax])
    rw [h1] at h2
    unfold newUUIDmax at h2
    omega

/-- C6 (amended): every UUID newUUID produces lies in
[0, 2 ^ 130 - 1): whenever entropy is available the output is below
2 ^ 130 - 1 (in particular below 2 ^ 130), and every value below
2 ^ 130 - 1 is a possible output. -/
theorem newUUID_domain :
    (∀ (p : LargePreimageUploader) (e : Nat), p.entropy = Except.ok e →
        ∃ v, newUUID p = Except.ok v ∧ v < newUUIDmax ∧ v < 2 ^ 130) ∧
    (∀ v, v < newUUIDmax →
        ∃ p : LargePreimageUploader, newUUID p = Except.ok v) ∧
    newUUIDmax = 2 ^ 130 - 1 := by
  refine ⟨fun p e he => ?_, fun v hv => ?_, rfl⟩
  · have hlt : e % newUUIDmax < newUUIDmax :=
      Nat.mod_lt e (by norm_num [newUUIDmax])
    have hmax : newUUIDmax < 2 ^ 130 := by norm_num [newUUIDmax]
    exact ⟨e % newUUIDmax, by simp only [newUUID, he], hlt, lt_trans hlt hmax⟩
  · refine ⟨entropyUploader v, ?_⟩
    simp only [newUUID, entropyUploader]
    rw [Nat.mod_eq_of_lt hv]

/-- Witness for the amended C6 theorem: the all-success uploader has
entropy, and the concrete value 5 is a possible output. -/
theorem newUUID_domain_witness :
    (∃ v, newUUID happyUploader = Except.ok v ∧ v < newUUIDmax ∧ v < 2 ^ 130) ∧
    (∃ p : LargePreimageUploader, newUUID p = Except.ok 5) :=
  ⟨newUUID_domain.1 happyUploader 42 rfl,
   newUUID_domain.2.1 5 (by norm_num [newUUIDmax])⟩

/-- C10: UploadPreimage never returns nil: for every uploader
environment (hence every behavior of the gateway, the submitter, the
keccak primitive and the entropy source), every parent claim index and
every preimage, the returned error value is present — either a wrapped
UUID, initialization or submission failure, or the errNotSupported
sentinel. -/
theorem uploadPreimage_never_nil (p : LargePreimageUploader) (parent : Nat)
    (data : PreimageOracleData) :
    ((UploadPreimage p parent data).2).isSome = true := by
  unfold UploadPreimage
  rcases hu : newUUID p with err | uuid
  · simp
  · rcases hIe : initLargePreimage p emptyTrace uuid data.OracleOffset
        (data.OracleData.length % uint32Modulus) with ⟨t1, e1⟩
    rcases e1 with _ | errI
    · rcases hAe : addLargePreimageLeafs p t1 uuid (buildLeafs p.keccak data) false
        with ⟨t2, e2⟩
      rcases e2 with _ | errA
      · simp [hIe, hAe]
      · simp [hIe, hAe]
    · simp [hIe]

/-- Witness for the C10 theorem at a concrete uploader and preimage. -/
theorem uploadPreimage_never_nil_witness :
    ((UploadPreimage happyUploader 0 (NewPreimageOracleData [] [] 0)).2).isSome
      = true :=
  uploadPreimage_never_nil happyUploader 0 (NewPreimageOracleData [] [] 0)
